import Mathlib

/-!
Verification of the COVID tweet collection pipeline
(`covid_tweets.py`, `transformer_sentiment.py`).

The Python code is shallowly embedded: tweepy `Status` objects become the
`Tweet` structure (optional attributes become `Option`), pandas `DataFrame`
values become the `DataFrame` structure (a column header plus ordered rows),
the process environment becomes a function from names to optional values, and
fallible Python code (an uncaught exception) becomes `Except`.
-/

namespace TwitterCovid

/-- A cell of a normalized row.  The Python row is a heterogeneous list
holding strings, integer counters and one list of hashtag strings. -/
inductive Field where
  | str : String → Field
  | num : Nat → Field
  | tags : List String → Field
deriving DecidableEq, Repr

/-- The author profile attached to a tweet (`tweet.user` in tweepy). -/
structure User where
  screen_name : String
  description : String
  location : String
  friends_count : Nat
  followers_count : Nat
  statuses_count : Nat
deriving DecidableEq, Repr

/-- One hashtag entity: a dict with a `"text"` key. -/
structure Hashtag where
  text : String
deriving DecidableEq, Repr

/-- The `entities` dict of a tweet.  `hashtags` is `none` when the key is
absent, so that `entities.get("hashtags", [])` can be modelled exactly. -/
structure Entities where
  hashtags : Option (List Hashtag)
deriving DecidableEq, Repr

/-- The referenced original status of a reshare
(`tweet.retweeted_status`).  Its `full_text` attribute may itself be
absent, in which case the Python attribute chain raises `AttributeError`. -/
structure Original where
  full_text : Option String
deriving DecidableEq, Repr

/-- A raw record as handed to `tweet_to_row`.  Attributes that the code
probes by `try`/`except AttributeError` are `Option`s. -/
structure Tweet where
  user : User
  entities : Entities
  retweeted_status : Option Original
  full_text : Option String
  retweet_count : Nat
deriving DecidableEq, Repr

/-- The only per-record normalization failure: both the repost reference
chain and the record's own `full_text` are absent, so the second
`AttributeError` escapes the handler and aborts the run. -/
inductive NormError where
  | malformedRecord
deriving DecidableEq, Repr

/-- `entities.get("hashtags", [])` followed by `[h["text"] for h in ...]`:
the tag annotations of the record, as strings, in attachment order. -/
def hashtagsOf (t : Tweet) : List String :=
  (t.entities.hashtags.getD []).map Hashtag.text

/-- The `try`/`except AttributeError` of `tweet_to_row`:
`text = tweet.retweeted_status.full_text`, falling back to
`text = tweet.full_text` when either attribute of the chain is absent.
Returns `none` when the fallback attribute is absent too (in Python the
`AttributeError` raised inside the handler propagates). -/
def resolveText (t : Tweet) : Option String :=
  match t.retweeted_status with
  | some rs =>
      match rs.full_text with
      | some s => some s
      | none => t.full_text
  | none => t.full_text

/-- The literal 9-cell list returned by `tweet_to_row` once the body text
is resolved: `[screen_name, description, location, friends_count,
followers_count, statuses_count, retweet_count, text, hashtags]`. -/
def mkRow (t : Tweet) (text : String) : List Field :=
  [ .str t.user.screen_name
  , .str t.user.description
  , .str t.user.location
  , .num t.user.friends_count
  , .num t.user.followers_count
  , .num t.user.statuses_count
  , .num t.retweet_count
  , .str text
  , .tags (hashtagsOf t) ]

/-- `tweet_to_row`: convert one status object to the list representing one
CSV row. -/
def tweet_to_row (t : Tweet) : Except NormError (List Field) :=
  match resolveText t with
  | none => .error .malformedRecord
  | some text => .ok (mkRow t text)

/-! ## Credential resolution (`create_api`) -/

/-- The process environment: `os.getenv` returns `none` for an unset name. -/
def Env : Type := String → Option String

/-- The four credential values `create_api` hands on, unmodified, to
`tweepy.OAuthHandler` and `auth.set_access_token`. -/
structure Credentials where
  consumer_key : String
  consumer_secret : String
  access_token : String
  access_secret : String
deriving DecidableEq, Repr

/-- The failure of `create_api`: the `RuntimeError` raised when the
credentials are not fully set (the spec's `MissingCredentials`). -/
inductive ApiError where
  | missingCredentials
deriving DecidableEq, Repr

/-- Python truthiness of an `Optional[str]`: `None` and `""` are falsy,
which is what `all([...])` tests in `create_api`. -/
def truthy : Option String → Bool
  | none => false
  | some s => !s.isEmpty

/-- `create_api`: read the four credentials from the environment, raise
`RuntimeError` unless `all` of them are truthy, otherwise pass them on. -/
def create_api (env : Env) : Except ApiError Credentials :=
  if truthy (env "TWITTER_CONSUMER_KEY") &&
     truthy (env "TWITTER_CONSUMER_SECRET") &&
     truthy (env "TWITTER_ACCESS_TOKEN") &&
     truthy (env "TWITTER_ACCESS_TOKEN_SECRET") then
    .ok ⟨(env "TWITTER_CONSUMER_KEY").getD "",
         (env "TWITTER_CONSUMER_SECRET").getD "",
         (env "TWITTER_ACCESS_TOKEN").getD "",
         (env "TWITTER_ACCESS_TOKEN_SECRET").getD ""⟩
  else
    .error .missingCredentials

/-- The names `create_api` reads from the environment. -/
def credNames : List String :=
  [ "TWITTER_CONSUMER_KEY", "TWITTER_CONSUMER_SECRET"
  , "TWITTER_ACCESS_TOKEN", "TWITTER_ACCESS_TOKEN_SECRET" ]

/-! ## Paginated collection (`scrape_tweets`) -/

/-- The fixed column header built in `scrape_tweets`. -/
def scrapeColumns : List String :=
  [ "username", "description", "location", "following", "followers"
  , "totaltweets", "retweetcount", "text", "hashtags" ]

/-- Modelled from the spec: the external library's
`Cursor(api.search, ...).items(limit)` is not repository code; the spec
says collection "produces a lazy, finite sequence: at most `limit`
records, fewer if the source is exhausted first", flattening pages into a
single stream in the source's order with no client-side reordering.  The
source is modelled as the ordered stream of records it would serve. -/
def itemsCursor (source : List Tweet) (limit : Nat) : List Tweet :=
  source.take limit

/-- A pandas `DataFrame` as built by `pd.DataFrame(rows, columns=columns)`:
an ordered column header and ordered rows. -/
structure DataFrame where
  columns : List String
  rows : List (List Field)
deriving DecidableEq, Repr

/-- The list comprehension `[tweet_to_row(tweet) for tweet in cursor]`:
normalize the records left to right; the first uncaught exception aborts
the whole comprehension, which `Except` propagation mirrors. -/
def normalizeAll : List Tweet → Except NormError (List (List Field))
  | [] => .ok []
  | t :: ts =>
      match tweet_to_row t with
      | .error e => .error e
      | .ok r =>
          match normalizeAll ts with
          | .error e => .error e
          | .ok rs => .ok (r :: rs)

/-- `scrape_tweets`: iterate the cursor, normalize each record with
`tweet_to_row` in retrieval order, and build the data frame. -/
def scrape_tweets (source : List Tweet) (limit : Nat) :
    Except NormError DataFrame :=
  match normalizeAll (itemsCursor source limit) with
  | .error e => .error e
  | .ok rows => .ok ⟨scrapeColumns, rows⟩

/-! ## Tabular sink (`save_to_csv`) -/

/-- Textual form of one cell, as `str()` renders it into the CSV. -/
def fieldToCsv : Field → String
  | .str s => s
  | .num n => toString n
  | .tags l => toString l

/-- Modelled from the spec: `df.to_csv(filename, index=False)` is pandas
library code; the spec says the sink writes "the fixed 9-column header
listed in §3, one row per record, in input order", and `index=False`
means no extra index column is prepended.  The file is modelled as its
list of lines: the header line, then one line per data row. -/
def save_to_csv (df : DataFrame) : List String :=
  String.intercalate "," df.columns ::
    df.rows.map (fun r => String.intercalate "," (r.map fieldToCsv))

/-! ## Rate-limit transparency -/

/-- One observable event of the paginated stream: either the source serves
the next record, or it signals that the client is rate-limited. -/
inductive PageEvent where
  | record : Tweet → PageEvent
  | rateLimit : PageEvent
deriving DecidableEq, Repr

/-- Modelled from the spec: `tweepy.API(auth, wait_on_rate_limit=True)`
delegates rate-limit handling to the external library; the spec says the
collector "suspends the calling thread until the limit window resets,
then resumes pagination from where it left off", emitting nothing for the
signal itself.  The collector is modelled as the fold over the event
stream: a record event is yielded once, a rate-limit event only suspends
and resumes. -/
def collectStream : List PageEvent → List Tweet
  | [] => []
  | .record t :: es => t :: collectStream es
  | .rateLimit :: es => collectStream es

/-! ## Sentiment-stage loader (`load_tweets`) -/

/-- The failure of `load_tweets`: the `RuntimeError` raised when the
input CSV has no `text` column. -/
inductive LoadError where
  | missingTextColumn
deriving DecidableEq, Repr

/-- Index of the first column with the given header name, if any. -/
def colIndex (cols : List String) (name : String) : Option Nat :=
  match cols with
  | [] => none
  | c :: cs => if c = name then some 0 else (colIndex cs name).map (· + 1)

/-- Modelled from the spec: `df["text"]` / `.tolist()` is pandas library
code; it selects, for each file row in order, that row's value under the
`text` column header (§6: the file the sentiment stage consumes has a
`text` column).  Out-of-range rows contribute nothing. -/
def getColumn (df : DataFrame) (name : String) : List Field :=
  match colIndex df.columns name with
  | some i => df.rows.filterMap (fun r => r[i]?)
  | none => []

/-- `load_tweets`: read the CSV into a data frame, raise `RuntimeError`
when `"text" not in df.columns`, else return the `text` column as a
list in file row order. -/
def load_tweets (df : DataFrame) : Except LoadError (List Field) :=
  if "text" ∈ df.columns then
    .ok (getColumn df "text")
  else
    .error .missingTextColumn

/-! ## Concrete sample data (used to evaluate the definitions) -/

/-- A sample author profile. -/
def sampleUser : User := ⟨"alice", "bio", "earth", 10, 20, 30⟩

/-- A reshare whose own body is truncated and whose referenced original
carries the full body. -/
def sampleRepost : Tweet :=
  ⟨sampleUser, ⟨some []⟩, some ⟨some "full original body"⟩,
   some "full orig...", 7⟩

/-- An ordinary (non-reshare) record with three tags attached in order. -/
def sampleOriginalPost : Tweet :=
  ⟨sampleUser, ⟨some [⟨"covid"⟩, ⟨"vaccine"⟩, ⟨"news"⟩]⟩, none,
   some "own body", 2⟩

/-- A record lacking both the repost reference and its own body text. -/
def sampleMalformed : Tweet := ⟨sampleUser, ⟨none⟩, none, none, 0⟩

/-- An environment carrying all four credentials. -/
def sampleEnvOk : Env := fun n =>
  if n = "TWITTER_CONSUMER_KEY" then some "ck"
  else if n = "TWITTER_CONSUMER_SECRET" then some "cs"
  else if n = "TWITTER_ACCESS_TOKEN" then some "tok"
  else if n = "TWITTER_ACCESS_TOKEN_SECRET" then some "sec"
  else none

/-- An environment with the access token unset and the rest present. -/
def sampleEnvBad : Env := fun n =>
  if n = "TWITTER_ACCESS_TOKEN" then none else sampleEnvOk n

/-- A sample parsed CSV with a `text` column between two others. -/
def sampleDf : DataFrame :=
  ⟨["id", "text", "score"],
   [[.num 1, .str "first tweet", .num 9], [.num 2, .str "second tweet", .num 8]]⟩

/-! ## Helper lemmas -/

/-- `None` and the empty string are exactly the falsy optional strings. -/
theorem truthy_eq_false_iff (o : Option String) :
    truthy o = false ↔ o = none ∨ o = some "" := by
  cases o with
  | none => simp [truthy]
  | some s =>
      simp only [truthy, Bool.not_eq_false']
      constructor
      · intro h
        exact Or.inr (by rw [(String.isEmpty_iff s).mp h])
      · rintro (h | h)
        · exact absurd h (by simp)
        · cases h
          rfl

/-- A present value is truthy exactly when it is non-empty. -/
theorem truthy_some_iff (s : String) : truthy (some s) = true ↔ s ≠ "" := by
  constructor
  · intro h hEq
    subst hEq
    exact absurd h (by decide)
  · intro h
    cases he : s.isEmpty with
    | false => simp [truthy, he]
    | true => exact absurd ((String.isEmpty_iff s).mp he) h

/-- A successful `normalizeAll` pairs each input record with its
normalized row, in order. -/
theorem normalizeAll_ok_forall₂ {l : List Tweet} {rs : List (List Field)}
    (h : normalizeAll l = .ok rs) :
    List.Forall₂ (fun t r => tweet_to_row t = .ok r) l rs := by
  induction l generalizing rs with
  | nil =>
      simp only [normalizeAll] at h
      cases h
      exact List.Forall₂.nil
  | cons t ts ih =>
      simp only [normalizeAll] at h
      cases ht : tweet_to_row t with
      | error e => rw [ht] at h; cases h
      | ok r =>
          rw [ht] at h
          cases hts : normalizeAll ts with
          | error e => rw [hts] at h; cases h
          | ok rows =>
              rw [hts] at h
              cases h
              exact List.Forall₂.cons ht (ih hts)

/-- If any record of the batch fails to normalize, the whole batch fails. -/
theorem normalizeAll_error_of_mem {l : List Tweet} {t : Tweet}
    (ht : t ∈ l) (he : tweet_to_row t = .error NormError.malformedRecord) :
    normalizeAll l = .error NormError.malformedRecord := by
  induction l with
  | nil => cases ht
  | cons a as ih =>
      rcases List.mem_cons.mp ht with h | h
      · subst h
        simp [normalizeAll, he]
      · cases ha : tweet_to_row a with
        | error e => cases e; simp [normalizeAll, ha]
        | ok r => simp [normalizeAll, ha, ih h]

/-- `colIndex` only answers with a name actually present in the header. -/
theorem mem_of_colIndex_eq_some {cols : List String} {name : String} {i : Nat}
    (h : colIndex cols name = some i) : name ∈ cols := by
  induction cols generalizing i with
  | nil => cases h
  | cons c cs ih =>
      by_cases hc : c = name
      · subst hc
        exact List.mem_cons_self _ _
      · simp only [colIndex, if_neg hc] at h
        cases hi : colIndex cs name with
        | none => rw [hi] at h; cases h
        | some j => exact List.mem_cons_of_mem _ (ih hi)

/-- `colIndex` answers exactly for the names present in the header. -/
theorem colIndex_isSome_iff_mem (cols : List String) (name : String) :
    (∃ i, colIndex cols name = some i) ↔ name ∈ cols := by
  constructor
  · rintro ⟨i, hi⟩
    exact mem_of_colIndex_eq_some hi
  · intro hmem
    induction cols with
    | nil => cases hmem
    | cons c cs ih =>
        by_cases hc : c = name
        · exact ⟨0, by simp [colIndex, hc]⟩
        · rcases List.mem_cons.mp hmem with h | h
          · exact absurd h.symm hc
          · rcases ih h with ⟨j, hj⟩
            exact ⟨j + 1, by simp [colIndex, hc, hj]⟩

/-- Extracting index `i` from rows that all reach past `i` yields exactly
one value per row, in row order. -/
theorem filterMap_get_eq_map_getD (rows : List (List Field)) (i : Nat)
    (h : ∀ r ∈ rows, i < r.length) :
    rows.filterMap (fun r => r[i]?) =
      rows.map (fun r => r.getD i (Field.str "")) := by
  induction rows with
  | nil => rfl
  | cons r rs ih =>
      have hr : i < r.length := h r (List.mem_cons_self _ _)
      have hget : r[i]? = some (r.getD i (Field.str "")) := by
        rw [List.getElem?_eq_getElem hr, List.getD_eq_getElem _ _ hr]
      simp only [List.filterMap_cons, hget, List.map_cons]
      rw [ih (fun x hx => h x (List.mem_cons_of_mem _ hx))]

/-- `create_api` raises exactly when one of the four credential values is
falsy. -/
theorem create_api_error_cases (env : Env) :
    create_api env = .error ApiError.missingCredentials ↔
      truthy (env "TWITTER_CONSUMER_KEY") = false ∨
      truthy (env "TWITTER_CONSUMER_SECRET") = false ∨
      truthy (env "TWITTER_ACCESS_TOKEN") = false ∨
      truthy (env "TWITTER_ACCESS_TOKEN_SECRET") = false := by
  simp only [create_api]
  cases h1 : truthy (env "TWITTER_CONSUMER_KEY") <;>
    cases h2 : truthy (env "TWITTER_CONSUMER_SECRET") <;>
      cases h3 : truthy (env "TWITTER_ACCESS_TOKEN") <;>
        cases h4 : truthy (env "TWITTER_ACCESS_TOKEN_SECRET") <;>
          simp

/-- A successful `scrape_tweets` run is a successful `normalizeAll` over
the cursor's records, framed with the fixed header. -/
theorem scrape_tweets_ok_inv {source : List Tweet} {limit : Nat}
    {df : DataFrame} (h : scrape_tweets source limit = .ok df) :
    ∃ rows, normalizeAll (itemsCursor source limit) = .ok rows ∧
      df = ⟨scrapeColumns, rows⟩ := by
  cases hn : normalizeAll (itemsCursor source limit) with
  | error e => simp [scrape_tweets, hn] at h
  | ok rows =>
      refine ⟨rows, rfl, ?_⟩
      simp only [scrape_tweets, hn] at h
      cases h
      rfl

/-! ## Claims -/

/-- C1: for a record carrying a repost reference, `tweet_to_row` resolves
the body-text cell (position 7 of the row) to the referenced original's
full text, never the wrapper's own (possibly truncated) text; for a record
without a repost reference, the body-text cell is the record's own full
text. -/
theorem body_text_resolution (t : Tweet) (rs : Original) (orig own : String) :
    (t.retweeted_status = some rs → rs.full_text = some orig →
      tweet_to_row t = .ok (mkRow t orig) ∧
        (mkRow t orig)[7]? = some (.str orig)) ∧
    (t.retweeted_status = none → t.full_text = some own →
      tweet_to_row t = .ok (mkRow t own) ∧
        (mkRow t own)[7]? = some (.str own)) := by
  constructor
  · intro h1 h2
    have hres : resolveText t = some orig := by
      simp [resolveText, h1, h2]
    exact ⟨by simp [tweet_to_row, hres], rfl⟩
  · intro h1 h2
    have hres : resolveText t = some own := by
      simp [resolveText, h1, h2]
    exact ⟨by simp [tweet_to_row, hres], rfl⟩

/-- C1 witness: on the sample reshare with truncated own text the body
cell is the original's full text; on the sample ordinary record it is the
record's own text. -/
theorem body_text_resolution_witness :
    tweet_to_row sampleRepost = .ok (mkRow sampleRepost "full original body") ∧
    tweet_to_row sampleOriginalPost = .ok (mkRow sampleOriginalPost "own body") :=
  ⟨((body_text_resolution sampleRepost ⟨some "full original body"⟩
      "full original body" "").1 rfl rfl).1,
   ((body_text_resolution sampleOriginalPost ⟨none⟩ ""
      "own body").2 rfl rfl).1⟩

/-- C2: `create_api` succeeds exactly when all four credentials are
present and non-empty, passing the four values on unmodified, and raises
the missing-credentials error exactly when at least one of the four is
absent or empty. -/
theorem credential_resolution (env : Env) :
    (∀ k s a b,
      env "TWITTER_CONSUMER_KEY" = some k → k ≠ "" →
      env "TWITTER_CONSUMER_SECRET" = some s → s ≠ "" →
      env "TWITTER_ACCESS_TOKEN" = some a → a ≠ "" →
      env "TWITTER_ACCESS_TOKEN_SECRET" = some b → b ≠ "" →
      create_api env = .ok ⟨k, s, a, b⟩) ∧
    (create_api env = .error ApiError.missingCredentials ↔
      ∃ n ∈ credNames, env n = none ∨ env n = some "") := by
  constructor
  · intro k s a b hk hk0 hs hs0 ha ha0 hb hb0
    have c1 : truthy (env "TWITTER_CONSUMER_KEY") = true := by
      rw [hk]; exact (truthy_some_iff k).mpr hk0
    have c2 : truthy (env "TWITTER_CONSUMER_SECRET") = true := by
      rw [hs]; exact (truthy_some_iff s).mpr hs0
    have c3 : truthy (env "TWITTER_ACCESS_TOKEN") = true := by
      rw [ha]; exact (truthy_some_iff a).mpr ha0
    have c4 : truthy (env "TWITTER_ACCESS_TOKEN_SECRET") = true := by
      rw [hb]; exact (truthy_some_iff b).mpr hb0
    simp only [create_api, c1, c2, c3, c4, Bool.and_self, Bool.and_true]
    simp [hk, hs, ha, hb]
  · rw [create_api_error_cases env]
    rw [truthy_eq_false_iff, truthy_eq_false_iff,
        truthy_eq_false_iff, truthy_eq_false_iff]
    constructor
    · rintro (h | h | h | h)
      · exact ⟨"TWITTER_CONSUMER_KEY", by simp [credNames], h⟩
      · exact ⟨"TWITTER_CONSUMER_SECRET", by simp [credNames], h⟩
      · exact ⟨"TWITTER_ACCESS_TOKEN", by simp [credNames], h⟩
      · exact ⟨"TWITTER_ACCESS_TOKEN_SECRET", by simp [credNames], h⟩
    · rintro ⟨n, hn, h⟩
      simp only [credNames, List.mem_cons, List.not_mem_nil, or_false] at hn
      rcases hn with rfl | rfl | rfl | rfl
      · exact Or.inl h
      · exact Or.inr (Or.inl h)
      · exact Or.inr (Or.inr (Or.inl h))
      · exact Or.inr (Or.inr (Or.inr h))

/-- C2 witness: the fully-set sample environment resolves to its four
values unmodified, and the environment missing the access token fails. -/
theorem credential_resolution_witness :
    create_api sampleEnvOk = .ok ⟨"ck", "cs", "tok", "sec"⟩ ∧
    create_api sampleEnvBad = .error ApiError.missingCredentials :=
  ⟨(credential_resolution sampleEnvOk).1 "ck" "cs" "tok" "sec"
      rfl (by decide) rfl (by decide) rfl (by decide) rfl (by decide),
   (credential_resolution sampleEnvBad).2.mpr
      ⟨"TWITTER_ACCESS_TOKEN", by simp [credNames], Or.inl rfl⟩⟩

/-- C3: the cursor yields at most `limit` records, all of the source when
it has fewer than `limit`, and a successful run has exactly one table row
per yielded record, so at most `limit` rows. -/
theorem collect_respects_limit (source : List Tweet) (limit : Nat)
    (df : DataFrame) (_hpos : 0 < limit)
    (hdf : scrape_tweets source limit = .ok df) :
    (itemsCursor source limit).length ≤ limit ∧
    (source.length < limit → itemsCursor source limit = source) ∧
    df.rows.length = (itemsCursor source limit).length ∧
    df.rows.length ≤ limit := by
  have hlen : (itemsCursor source limit).length ≤ limit := by
    rw [itemsCursor, List.length_take]
    exact min_le_left _ _
  have hall : source.length < limit → itemsCursor source limit = source := by
    intro hlt
    rw [itemsCursor]
    exact List.take_of_length_le (Nat.le_of_lt hlt)
  rcases scrape_tweets_ok_inv hdf with ⟨rows, hn, rfl⟩
  have hrows : rows.length = (itemsCursor source limit).length :=
    (normalizeAll_ok_forall₂ hn).length_eq.symm
  exact ⟨hlen, hall, hrows, hrows ▸ hlen⟩

/-- C3 witness: a two-record source under limit 5 is drained whole and
yields a two-row table. -/
theorem collect_respects_limit_witness :
    0 < 5 ∧
    ((itemsCursor [sampleRepost, sampleOriginalPost] 5).length ≤ 5 ∧
     ([sampleRepost, sampleOriginalPost].length < 5 →
       itemsCursor [sampleRepost, sampleOriginalPost] 5 =
         [sampleRepost, sampleOriginalPost]) ∧
     (DataFrame.mk scrapeColumns
       [mkRow sampleRepost "full original body",
        mkRow sampleOriginalPost "own body"]).rows.length =
       (itemsCursor [sampleRepost, sampleOriginalPost] 5).length ∧
     (DataFrame.mk scrapeColumns
       [mkRow sampleRepost "full original body",
        mkRow sampleOriginalPost "own body"]).rows.length ≤ 5) :=
  ⟨by decide,
   collect_respects_limit [sampleRepost, sampleOriginalPost] 5
     ⟨scrapeColumns,
      [mkRow sampleRepost "full original body",
       mkRow sampleOriginalPost "own body"]⟩
     (by decide) rfl⟩

/-- C4: a record lacking both the repost reference and its own body text
makes `tweet_to_row` fail with the malformed-record error, and when such a
record is among those the cursor yields, the whole `scrape_tweets` run
aborts with that error instead of skipping the record. -/
theorem malformed_record_aborts (t : Tweet) (source : List Tweet)
    (limit : Nat) (h1 : t.retweeted_status = none) (h2 : t.full_text = none)
    (hmem : t ∈ itemsCursor source limit) :
    tweet_to_row t = .error NormError.malformedRecord ∧
    scrape_tweets source limit = .error NormError.malformedRecord := by
  have hres : resolveText t = none := by
    simp [resolveText, h1, h2]
  have hrow : tweet_to_row t = .error NormError.malformedRecord := by
    simp [tweet_to_row, hres]
  refine ⟨hrow, ?_⟩
  have hall := normalizeAll_error_of_mem hmem hrow
  simp [scrape_tweets, hall]

/-- C4 witness: with the malformed sample among two retrieved records, the
record and the whole run both fail. -/
theorem malformed_record_aborts_witness :
    sampleMalformed ∈ itemsCursor [sampleOriginalPost, sampleMalformed] 5 ∧
    (tweet_to_row sampleMalformed = .error NormError.malformedRecord ∧
     scrape_tweets [sampleOriginalPost, sampleMalformed] 5 =
       .error NormError.malformedRecord) :=
  ⟨by decide,
   malformed_record_aborts sampleMalformed [sampleOriginalPost, sampleMalformed]
     5 rfl rfl (by decide)⟩

/-- C5: the tag list of a normalized row is exactly the record's tag
annotations as strings in attachment order (`hashtagsOf` is total, so an
empty or absent annotation set yields `[]` rather than an error), and it
sits in cell 8 of every successfully normalized row. -/
theorem tag_extraction (t : Tweet) (hs : List Hashtag) (row : List Field) :
    (t.entities.hashtags = some hs → hashtagsOf t = hs.map Hashtag.text) ∧
    (t.entities.hashtags = none → hashtagsOf t = []) ∧
    (tweet_to_row t = .ok row →
      row[8]? = some (.tags (hashtagsOf t))) := by
  refine ⟨?_, ?_, ?_⟩
  · intro h
    simp [hashtagsOf, h]
  · intro h
    simp [hashtagsOf, h]
  · intro h
    cases hres : resolveText t with
    | none => simp [tweet_to_row, hres] at h
    | some body =>
        simp only [tweet_to_row, hres] at h
        cases h
        rfl

/-- C5 witness: the sample record tagged `covid`, `vaccine`, `news` in
that order keeps that order in cell 8, and the tagless sample yields the
empty list. -/
theorem tag_extraction_witness :
    hashtagsOf sampleOriginalPost = ["covid", "vaccine", "news"] ∧
    hashtagsOf sampleMalformed = [] ∧
    (mkRow sampleOriginalPost "own body")[8]? =
      some (Field.tags ["covid", "vaccine", "news"]) :=
  ⟨(tag_extraction sampleOriginalPost [⟨"covid"⟩, ⟨"vaccine"⟩, ⟨"news"⟩] []).1 rfl,
   (tag_extraction sampleMalformed [] []).2.1 rfl,
   (tag_extraction sampleOriginalPost [⟨"covid"⟩, ⟨"vaccine"⟩, ⟨"news"⟩]
     (mkRow sampleOriginalPost "own body")).2.2 rfl⟩

/-- C6: normalization is a pure function of the record: evaluating it
twice on the same record, alone or inside a batch, gives identical
results, and it touches no other state (it is a function of `t` only). -/
theorem normalize_pure (t : Tweet) :
    tweet_to_row t = tweet_to_row t ∧
    [t, t].map tweet_to_row = [tweet_to_row t, tweet_to_row t] :=
  ⟨rfl, rfl⟩

/-- C7: every successful run carries the fixed 9-name column header,
pairs the retrieved records with the table rows one to one in retrieval
order, and every successfully normalized row is the fixed 9-cell tuple
`mkRow` in its fixed field order. -/
theorem fixed_schema (source : List Tweet) (limit : Nat) (df : DataFrame)
    (t : Tweet) (body : String)
    (hdf : scrape_tweets source limit = .ok df)
    (ht : resolveText t = some body) :
    df.columns = scrapeColumns ∧
    scrapeColumns.length = 9 ∧
    List.Forall₂ (fun a r => tweet_to_row a = .ok r)
      (itemsCursor source limit) df.rows ∧
    tweet_to_row t = .ok (mkRow t body) ∧
    (mkRow t body).length = 9 := by
  rcases scrape_tweets_ok_inv hdf with ⟨rows, hn, rfl⟩
  refine ⟨rfl, rfl, normalizeAll_ok_forall₂ hn, ?_, rfl⟩
  simp [tweet_to_row, ht]

/-- C7 witness: a one-record run produces the fixed header and the single
9-cell row for that record. -/
theorem fixed_schema_witness :
    (DataFrame.mk scrapeColumns
      [mkRow sampleRepost "full original body"]).columns = scrapeColumns ∧
    scrapeColumns.length = 9 ∧
    List.Forall₂ (fun a r => tweet_to_row a = .ok r)
      (itemsCursor [sampleRepost] 1)
      (DataFrame.mk scrapeColumns
        [mkRow sampleRepost "full original body"]).rows ∧
    tweet_to_row sampleRepost = .ok (mkRow sampleRepost "full original body") ∧
    (mkRow sampleRepost "full original body").length = 9 :=
  fixed_schema [sampleRepost] 1
    ⟨scrapeColumns, [mkRow sampleRepost "full original body"]⟩
    sampleRepost "full original body" rfl rfl

/-- C8: a rate-limit signal at any point of the paginated stream leaves
the emitted record sequence unchanged — nothing already yielded is
dropped and nothing is emitted twice — and the stream resumes exactly
where it paused (the records after the signal follow those before it). -/
theorem rate_limit_transparency (pre post : List PageEvent) :
    collectStream (pre ++ PageEvent.rateLimit :: post) =
      collectStream (pre ++ post) ∧
    collectStream (pre ++ post) =
      collectStream pre ++ collectStream post := by
  induction pre with
  | nil => exact ⟨rfl, rfl⟩
  | cons e es ih =>
      cases e with
      | record t =>
          exact ⟨by simp [collectStream, ih.1], by simp [collectStream, ih.2]⟩
      | rateLimit =>
          exact ⟨by simp [collectStream, ih.1], by simp [collectStream, ih.2]⟩

/-- C9: `load_tweets` fails with the missing-column error exactly when the
parsed CSV has no `text` column; when the column exists (at whatever
position, among whatever other columns) it returns that column's values as
a list, one per file row, in file row order. -/
theorem load_tweets_spec (df : DataFrame) :
    (load_tweets df = .error LoadError.missingTextColumn ↔
      "text" ∉ df.columns) ∧
    ("text" ∈ df.columns ↔ ∃ i, colIndex df.columns "text" = some i) ∧
    (∀ i, colIndex df.columns "text" = some i →
      (∀ r ∈ df.rows, i < r.length) →
      load_tweets df =
        .ok (df.rows.map (fun r => r.getD i (Field.str "")))) := by
  refine ⟨?_, (colIndex_isSome_iff_mem _ _).symm, ?_⟩
  · by_cases hmem : "text" ∈ df.columns
    · simp [load_tweets, hmem]
    · simp [load_tweets, hmem]
  · intro i hi hrect
    have hmem : "text" ∈ df.columns := mem_of_colIndex_eq_some hi
    simp only [load_tweets, hmem, if_true]
    simp only [getColumn, hi]
    rw [filterMap_get_eq_map_getD df.rows i hrect]

/-- C9 witness: on the sample CSV whose `text` column sits between `id`
and `score`, loading returns the two text values in file row order. -/
theorem load_tweets_spec_witness :
    colIndex sampleDf.columns "text" = some 1 ∧
    load_tweets sampleDf =
      .ok [Field.str "first tweet", Field.str "second tweet"] :=
  ⟨rfl, (load_tweets_spec sampleDf).2.2 1 rfl (by decide)⟩

/-- C10: when the cursor yields no record, `scrape_tweets` still returns
the table with the fixed 9-column header and no data rows, and
`save_to_csv` serializes it as the single header line with no extra index
column — an empty collection is not an error. -/
theorem empty_collection (source : List Tweet) (limit : Nat)
    (h : itemsCursor source limit = []) :
    scrape_tweets source limit = .ok ⟨scrapeColumns, []⟩ ∧
    save_to_csv ⟨scrapeColumns, []⟩ =
      [String.intercalate "," scrapeColumns] ∧
    String.intercalate "," scrapeColumns =
      "username,description,location,following,followers,totaltweets,retweetcount,text,hashtags" := by
  refine ⟨?_, rfl, rfl⟩
  simp [scrape_tweets, h, normalizeAll]

/-- C10 witness: the empty source under limit 100 gives the header-only
file. -/
theorem empty_collection_witness :
    itemsCursor ([] : List Tweet) 100 = [] ∧
    (scrape_tweets [] 100 = .ok ⟨scrapeColumns, []⟩ ∧
     save_to_csv ⟨scrapeColumns, []⟩ =
       [String.intercalate "," scrapeColumns] ∧
     String.intercalate "," scrapeColumns =
       "username,description,location,following,followers,totaltweets,retweetcount,text,hashtags") :=
  ⟨rfl, empty_collection [] 100 rfl⟩

end TwitterCovid
